import Mathlib

/-!
Verification development for the genericbro backend (medicine finder service).

The definitions below are a shallow embedding of the Python source:
  - `models/schemas.py` (pydantic models and their field validators),
  - `routers/finder.py` (value cleaning, query building, the search,
    suggestions and single-medicine endpoints, and the suggestion cache).

Conventions of the embedding:
  - Decimal prices are modelled as `ℚ` (pydantic `Decimal` is exact decimal
    arithmetic; `ℚ` contains every decimal exactly).
  - Python `round(x, 1)` is modelled as rounding to one decimal place; the
    tie-breaking convention of the model is round-half-up, which agrees with
    Python everywhere except exact ties.
  - A database row is modelled as a record holding every column of the
    `generic medicines list` table; the external store returns an ordered
    list of such rows.
  - A raised Python exception is modelled as the `error` branch of `Except`;
    pydantic validators run per field in declaration order, and a model
    fails validation exactly when some validator raises, so validation is
    modelled as a short-circuiting `Except` pipeline in validator order.
  - FastAPI endpoint outcomes are modelled by `EndpointResult`: `ok` is an
    HTTP 200 with a body, `err` carries the HTTP status code and detail of
    the JSON error response.
-/

namespace GenericBro

/-! ## String literal constants (column names, logical field names, messages) -/

def colName : String := "Name"

def colFormulation : String := "Formulation"

def colType : String := "Type"

def colDosage : String := "Dosage"

def colUses : String := "Uses"

def colSideEffects : String := "Side Effects"

def fldName : String := "name"

def fldFormulation : String := "formulation"

def fldType : String := "type"

def fldDosage : String := "dosage"

def emptyStr : String := ""

def hyphenStr : String := "-"

def spaceStr : String := " "

/-- A single-quote character, written via its code point. -/
def squote : String := String.singleton (Char.ofNat 39)

def msgAtLeastOne : String := "At least one search field must be provided"

def msgNegativePrice : String := "Price cannot be negative"

def msgGenericHigher : String := "Generic price cannot be higher than branded price"

def msgNegativeDifference : String := "Cost difference cannot be negative"

/-! ## Data model -/

/-- A raw row of the `generic medicines list` table, as returned by the
store: one value per column.  Optional columns may be null/absent. -/
structure Row where
  Name : String
  Dosage : String
  Formulation : String
  cost_of_branded : ℚ
  cost_of_generic : ℚ
  cost_difference : Option ℚ
  savings : Option ℚ
  type : String
  Uses : String
  Side_Effects : String
deriving DecidableEq, Repr

/-- The `Medicine` pydantic model (`models/schemas.py`), after validation. -/
structure Medicine where
  name : String
  dosage : String
  formulation : String
  cost_of_branded : ℚ
  cost_of_generic : ℚ
  cost_difference : Option ℚ
  savings : Option ℚ
  type : String
  uses : String
  side_effects : String
deriving DecidableEq, Repr

/-- Python `round(x, 1)`: round to one decimal place (half-up convention). -/
def roundTo1 (q : ℚ) : ℚ := (Int.floor (q * 10 + 1 / 2) : ℚ) / 10

/-- `Medicine.model_validate` (`models/schemas.py`): the field validators run
in declaration order:
`validate_prices` on `cost_of_branded`, then on `cost_of_generic`,
then `validate_generic_price`, then `calculate_cost_difference`
(which always recomputes `branded - generic` when both prices validated,
ignoring any provided value), then `calculate_savings` (which always
recomputes the percentage when `branded > 0`, else keeps the passed value). -/
def validateMedicine (r : Row) : Except String Medicine :=
  if r.cost_of_branded < 0 then Except.error msgNegativePrice
  else if r.cost_of_generic < 0 then Except.error msgNegativePrice
  else if r.cost_of_branded < r.cost_of_generic then Except.error msgGenericHigher
  else
    let calculated_difference := r.cost_of_branded - r.cost_of_generic
    if calculated_difference < 0 then Except.error msgNegativeDifference
    else
      let savingsVal :=
        if 0 < r.cost_of_branded then
          some (roundTo1 ((r.cost_of_branded - r.cost_of_generic) / r.cost_of_branded * 100))
        else r.savings
      Except.ok
        { name := r.Name
          dosage := r.Dosage
          formulation := r.Formulation
          cost_of_branded := r.cost_of_branded
          cost_of_generic := r.cost_of_generic
          cost_difference := some calculated_difference
          savings := savingsVal
          type := r.type
          uses := r.Uses
          side_effects := r.Side_Effects }

/-- `create_medicine_from_db` (`routers/finder.py`): coerces prices (a no-op
here), fills in `Cost difference` and `Savings` when absent, then runs
`Medicine.model_validate`. -/
def create_medicine_from_db (data : Row) : Except String Medicine :=
  let data1 :=
    match data.cost_difference with
    | none => { data with cost_difference := some (data.cost_of_branded - data.cost_of_generic) }
    | some _ => data
  let data2 :=
    match data1.savings with
    | none =>
      if 0 < data1.cost_of_branded then
        let s := roundTo1 ((data1.cost_of_branded - data1.cost_of_generic) /
          data1.cost_of_branded * 100)
        { data1 with savings := some s }
      else data1
    | some _ => data1
  validateMedicine data2

/-! ## Record mapper: helper lemmas -/

/-- Characterization of `Medicine.model_validate` on a row with valid prices:
validation succeeds, `cost_difference` is recomputed as `branded - generic`
(whatever the row provided), and `savings` is recomputed whenever
`branded > 0`, else left as provided. -/
theorem validateMedicine_ok (r : Row) (hg : 0 ≤ r.cost_of_generic)
    (hb : r.cost_of_generic ≤ r.cost_of_branded) :
    validateMedicine r = Except.ok
      { name := r.Name
        dosage := r.Dosage
        formulation := r.Formulation
        cost_of_branded := r.cost_of_branded
        cost_of_generic := r.cost_of_generic
        cost_difference := some (r.cost_of_branded - r.cost_of_generic)
        savings :=
          if 0 < r.cost_of_branded then
            some (roundTo1 ((r.cost_of_branded - r.cost_of_generic) / r.cost_of_branded * 100))
          else r.savings
        type := r.type
        uses := r.Uses
        side_effects := r.Side_Effects } := by
  have h1 : ¬ r.cost_of_branded < 0 := by linarith
  have h2 : ¬ r.cost_of_generic < 0 := by linarith
  have h3 : ¬ r.cost_of_branded < r.cost_of_generic := by linarith
  have h4 : ¬ r.cost_of_branded - r.cost_of_generic < 0 := by linarith
  simp only [validateMedicine, if_neg h1, if_neg h2, if_neg h3, if_neg h4]

/-- `validateMedicine` on an explicitly built row with valid prices. -/
theorem validateMedicine_mk_ok (nm ds fm ty us se : String) (b g : ℚ)
    (cd sv : Option ℚ) (hg : 0 ≤ g) (hb : g ≤ b) :
    validateMedicine ⟨nm, ds, fm, b, g, cd, sv, ty, us, se⟩ = Except.ok
      ⟨nm, ds, fm, b, g, some (b - g),
        if 0 < b then some (roundTo1 ((b - g) / b * 100)) else sv, ty, us, se⟩ :=
  validateMedicine_ok ⟨nm, ds, fm, b, g, cd, sv, ty, us, se⟩ hg hb

/-- `create_medicine_from_db` only rewrites the `Cost difference` and
`Savings` columns before validating: there is a row with the same cost
columns on which it is plain validation. -/
theorem create_costs_invariant (r : Row) : ∃ s : Row,
    create_medicine_from_db r = validateMedicine s
    ∧ s.cost_of_branded = r.cost_of_branded
    ∧ s.cost_of_generic = r.cost_of_generic := by
  unfold create_medicine_from_db
  cases hcd : r.cost_difference <;> cases hs : r.savings <;>
    by_cases h0 : 0 < r.cost_of_branded <;>
    simp only [hcd, hs, h0, if_true, if_false, ite_true, ite_false] <;>
    exact ⟨_, rfl, rfl, rfl⟩

/-- On a row with valid prices, `create_medicine_from_db` succeeds and
produces the recomputed cost fields. -/
theorem create_medicine_from_db_ok (r : Row) (hg : 0 ≤ r.cost_of_generic)
    (hb : r.cost_of_generic ≤ r.cost_of_branded) :
    create_medicine_from_db r = Except.ok
      { name := r.Name
        dosage := r.Dosage
        formulation := r.Formulation
        cost_of_branded := r.cost_of_branded
        cost_of_generic := r.cost_of_generic
        cost_difference := some (r.cost_of_branded - r.cost_of_generic)
        savings :=
          if 0 < r.cost_of_branded then
            some (roundTo1 ((r.cost_of_branded - r.cost_of_generic) / r.cost_of_branded * 100))
          else r.savings
        type := r.type
        uses := r.Uses
        side_effects := r.Side_Effects } := by
  unfold create_medicine_from_db
  by_cases h0 : 0 < r.cost_of_branded <;>
    cases hcd : r.cost_difference <;> cases hs : r.savings <;>
      simp only [hcd, hs, h0, if_true, if_false, ite_true, ite_false] <;>
      rw [validateMedicine_mk_ok] <;>
      simp [h0, hs, hg, hb]

/-- If the generic price strictly exceeds the branded price, mapping fails. -/
theorem create_error_of_generic_gt (r : Row)
    (h : r.cost_of_branded < r.cost_of_generic) :
    ∃ e, create_medicine_from_db r = Except.error e := by
  obtain ⟨s, heq, hsb, hsg⟩ := create_costs_invariant r
  rw [heq]
  by_cases h1 : s.cost_of_branded < 0
  · exact ⟨msgNegativePrice, by simp [validateMedicine, if_pos h1]⟩
  · have h3 : s.cost_of_branded < s.cost_of_generic := by rw [hsb, hsg]; exact h
    have h2 : ¬ s.cost_of_generic < 0 := by
      push_neg at h1 ⊢
      exact le_of_lt (lt_of_le_of_lt h1 h3)
    exact ⟨msgGenericHigher, by simp [validateMedicine, if_neg h1, if_neg h2, if_pos h3]⟩

/-! ## Claims C5, C6, C7 -/

/-- Claim C5 (confirmed): for every raw record with
`branded ≥ generic ≥ 0`, mapping succeeds, `cost_difference` equals
`branded - generic`, when `branded > 0` the `savings` field equals
`(branded - generic) / branded * 100` rounded to one decimal place, and when
`branded = 0` with no provided savings the `savings` field stays absent. -/
theorem mapping_valid_costs (r : Row) (hg : 0 ≤ r.cost_of_generic)
    (hb : r.cost_of_generic ≤ r.cost_of_branded) :
    ∃ m, create_medicine_from_db r = Except.ok m
      ∧ m.cost_difference = some (r.cost_of_branded - r.cost_of_generic)
      ∧ (0 < r.cost_of_branded →
          m.savings = some (roundTo1 ((r.cost_of_branded - r.cost_of_generic) /
            r.cost_of_branded * 100)))
      ∧ (r.cost_of_branded = 0 → r.savings = none → m.savings = none) := by
  refine ⟨_, create_medicine_from_db_ok r hg hb, rfl, ?_, ?_⟩
  · intro h0
    simp only [if_pos h0]
  · intro hb0 hs
    simp [hb0, hs]

def rowW5 : Row :=
  { Name := colName
    Dosage := colDosage
    Formulation := colFormulation
    cost_of_branded := 10
    cost_of_generic := 4
    cost_difference := none
    savings := none
    type := colType
    Uses := colUses
    Side_Effects := colSideEffects }

/-- Witness for C5 at a concrete record (branded 10, generic 4). -/
theorem mapping_valid_costs_witness :
    ∃ m, create_medicine_from_db rowW5 = Except.ok m
      ∧ m.cost_difference = some (rowW5.cost_of_branded - rowW5.cost_of_generic)
      ∧ (0 < rowW5.cost_of_branded →
          m.savings = some (roundTo1 ((rowW5.cost_of_branded - rowW5.cost_of_generic) /
            rowW5.cost_of_branded * 100)))
      ∧ (rowW5.cost_of_branded = 0 → rowW5.savings = none → m.savings = none) :=
  mapping_valid_costs rowW5 (by norm_num [rowW5]) (by norm_num [rowW5])

/-- Claim C6 (confirmed): a record whose generic cost strictly exceeds its
branded cost always fails mapping with a validation error. -/
theorem mapping_generic_above_branded_fails (r : Row)
    (h : r.cost_of_branded < r.cost_of_generic) :
    ∃ e, create_medicine_from_db r = Except.error e :=
  create_error_of_generic_gt r h

def rowW6 : Row :=
  { Name := colName
    Dosage := colDosage
    Formulation := colFormulation
    cost_of_branded := 5
    cost_of_generic := 10
    cost_difference := none
    savings := none
    type := colType
    Uses := colUses
    Side_Effects := colSideEffects }

/-- Witness for C6 at a concrete record (branded 5, generic 10). -/
theorem mapping_generic_above_branded_fails_witness :
    ∃ e, create_medicine_from_db rowW6 = Except.error e :=
  mapping_generic_above_branded_fails rowW6 (by norm_num [rowW6])

def sTabX : String := "TAB X"

def s1mg : String := "1mg"

def rowC7 : Row :=
  { Name := sTabX
    Dosage := s1mg
    Formulation := s1mg
    cost_of_branded := 10
    cost_of_generic := 5
    cost_difference := some (-3)
    savings := none
    type := colType
    Uses := colUses
    Side_Effects := colSideEffects }

def medC7 : Medicine :=
  { name := sTabX
    dosage := s1mg
    formulation := s1mg
    cost_of_branded := 10
    cost_of_generic := 5
    cost_difference := some 5
    savings := some 50
    type := colType
    uses := colUses
    side_effects := colSideEffects }

/-- Counterexample to claim C7 as stated: a record providing the negative
value `-3` for `cost_difference` (with branded 10, generic 5) does NOT fail
mapping; it maps successfully, and the provided value is silently replaced
by the recomputed difference `5`. -/
theorem provided_negative_cost_difference_accepted :
    rowC7.cost_difference = some (-3)
    ∧ create_medicine_from_db rowC7 = Except.ok medC7
    ∧ medC7.cost_difference = some 5 := by
  refine ⟨rfl, ?_, rfl⟩
  norm_num [create_medicine_from_db, validateMedicine, rowC7, medC7, roundTo1]

/-- Claim C7 (amended): mapping fails whenever the computed difference
`branded - generic` is negative; and whenever the cost fields are valid
(`0 ≤ generic ≤ branded`), the resulting `cost_difference` is the recomputed
`branded - generic` regardless of any provided value — in particular a
provided negative `cost_difference` does not by itself fail mapping. -/
theorem cost_difference_policy (r : Row) :
    (r.cost_of_branded - r.cost_of_generic < 0 →
      ∃ e, create_medicine_from_db r = Except.error e)
    ∧ (0 ≤ r.cost_of_generic → r.cost_of_generic ≤ r.cost_of_branded →
        ∃ m, create_medicine_from_db r = Except.ok m
          ∧ m.cost_difference = some (r.cost_of_branded - r.cost_of_generic)) := by
  constructor
  · intro h
    exact create_error_of_generic_gt r (by linarith)
  · intro hg hb
    exact ⟨_, create_medicine_from_db_ok r hg hb, rfl⟩

def rowW7a : Row :=
  { Name := colName
    Dosage := colDosage
    Formulation := colFormulation
    cost_of_branded := 3
    cost_of_generic := 7
    cost_difference := none
    savings := none
    type := colType
    Uses := colUses
    Side_Effects := colSideEffects }

def rowW7b : Row :=
  { Name := colName
    Dosage := colDosage
    Formulation := colFormulation
    cost_of_branded := 8
    cost_of_generic := 2
    cost_difference := some (-1)
    savings := none
    type := colType
    Uses := colUses
    Side_Effects := colSideEffects }

/-- Witness for C7 (amended) at concrete records. -/
theorem cost_difference_policy_witness :
    (∃ e, create_medicine_from_db rowW7a = Except.error e)
    ∧ (∃ m, create_medicine_from_db rowW7b = Except.ok m
        ∧ m.cost_difference = some (rowW7b.cost_of_branded - rowW7b.cost_of_generic)) :=
  ⟨(cost_difference_policy rowW7a).1 (by norm_num [rowW7a]),
   (cost_difference_policy rowW7b).2 (by norm_num [rowW7b]) (by norm_num [rowW7b])⟩

/-! ## Value normalizer (`clean_search_value`, `clean_type_value`)

Core `String.trim`, `String.splitOn`, `String.toLower` and `String.replace`
are modelled by structurally recursive char-list functions with the same
behavior, so that concrete values compute. -/

def hyphenChar : Char := Char.ofNat 45

def quoteChar : Char := Char.ofNat 39

/-- Python `str.strip`: drop whitespace from both ends. -/
def trimL (cs : List Char) : List Char :=
  ((cs.dropWhile Char.isWhitespace).reverse.dropWhile Char.isWhitespace).reverse

def trimS (s : String) : String := ⟨trimL s.toList⟩

/-- Split a character list at every character satisfying `p`, keeping empty
segments (Python `str.split(sep)` behavior for one-character separators). -/
def splitOnP (p : Char → Bool) : List Char → List (List Char)
  | [] => [[]]
  | x :: xs =>
    if p x then [] :: splitOnP p xs
    else
      match splitOnP p xs with
      | [] => [[x]]
      | h :: t => (x :: h) :: t

/-- Python `str.lower`. -/
def toLowerS (s : String) : String := ⟨s.toList.map Char.toLower⟩

/-- `clean_search_value` (`routers/finder.py`): trim, strip spacing around
hyphens, double embedded single quotes. -/
def clean_search_value (value : String) : String :=
  if value = emptyStr then emptyStr
  else
    let cleaned := trimS value
    let parts := (splitOnP (fun c => c == hyphenChar) cleaned.toList).map
      (fun p => trimS ⟨p⟩)
    let joined := String.intercalate hyphenStr parts
    ⟨joined.toList.flatMap
      (fun ch => if ch == quoteChar then [quoteChar, quoteChar] else [ch])⟩

/-- `clean_type_value` (`routers/finder.py`): collapse whitespace runs to
single spaces (Python `" ".join(value.split())`). -/
def clean_type_value (value : String) : String :=
  if value = emptyStr then emptyStr
  else String.intercalate spaceStr
    (((splitOnP Char.isWhitespace value.toList).map
        (fun p => (⟨p⟩ : String))).filter (fun s => s != emptyStr))

/-! ## Store model: rows, column access, query building and execution -/

def isPrefixL : List Char → List Char → Bool
  | [], _ => true
  | _ :: _, [] => false
  | a :: as, b :: bs => a == b && isPrefixL as bs

def containsSub : List Char → List Char → Bool
  | pat, [] => isPrefixL pat []
  | pat, c :: t => isPrefixL pat (c :: t) || containsSub pat t

/-- The store's `ilike(col, "%value%")`: case-insensitive substring match. -/
def ilikeContains (s pat : String) : Bool :=
  containsSub (toLowerS pat).toList (toLowerS s).toList

/-- Column access on a row by column name (Python `item[col]` / `item.get(col)`). -/
def Row.getStr (r : Row) (col : String) : String :=
  if col = colName then r.Name
  else if col = colFormulation then r.Formulation
  else if col = colType then r.type
  else if col = colDosage then r.Dosage
  else if col = colUses then r.Uses
  else if col = colSideEffects then r.Side_Effects
  else emptyStr

/-- A Supabase table query under construction: conjunction of filters, an
optional sort on `Cost of branded` (the `desc` flag), an optional row limit. -/
structure TableQuery where
  filters : List (Row → Bool)
  sortDesc : Option Bool
  rowLimit : Option Nat

def TableQuery.init : TableQuery := ⟨[], none, none⟩

/-- `.ilike(col, "%pat%")` on the query builder. -/
def TableQuery.ilike (q : TableQuery) (col pat : String) : TableQuery :=
  { q with filters := q.filters ++ [fun r => ilikeContains (r.getStr col) pat] }

/-- `.eq(col, v)` on the query builder: exact, case-sensitive equality. -/
def TableQuery.eq (q : TableQuery) (col v : String) : TableQuery :=
  { q with filters := q.filters ++ [fun r => r.getStr col == v] }

/-- `.order("Cost of branded", desc=d)` on the query builder. -/
def TableQuery.order (q : TableQuery) (desc : Bool) : TableQuery :=
  { q with sortDesc := some desc }

/-- `.limit(n)` on the query builder. -/
def TableQuery.withLimit (q : TableQuery) (n : Nat) : TableQuery :=
  { q with rowLimit := some n }

/-- Executing a built query against the store's table: filter, then sort,
then truncate.  The store returns matching rows in a stable order. -/
def TableQuery.run (q : TableQuery) (db : List Row) : List Row :=
  let filtered := db.filter (fun r => q.filters.all (fun p => p r))
  let sorted :=
    match q.sortDesc with
    | none => filtered
    | some false => filtered.mergeSort (fun a b => decide (a.cost_of_branded ≤ b.cost_of_branded))
    | some true => filtered.mergeSort (fun a b => decide (b.cost_of_branded ≤ a.cost_of_branded))
  match q.rowLimit with
  | none => sorted
  | some n => sorted.take n

/-- `field_mapping` in `build_search_query`: logical field name (or legacy
capitalized column name) to database column name; unknown names map to none. -/
def field_mapping (field : String) : Option String :=
  if field = fldType ∨ field = colType then some colType
  else if field = fldName ∨ field = colName then some colName
  else if field = fldFormulation ∨ field = colFormulation then some colFormulation
  else if field = fldDosage ∨ field = colDosage then some colDosage
  else none

/-- `build_search_query` (`routers/finder.py`): empty value or unknown field
is a no-op; the `Type` column always gets a case-insensitive substring
filter; other columns get equality when `exact`, substring otherwise. -/
def build_search_query (table_query : TableQuery) (field value : String)
    (exact : Bool) : TableQuery :=
  if value = emptyStr then table_query
  else
    match field_mapping field with
    | none => table_query
    | some db_field =>
      if db_field = colType then
        let cleaned_value := clean_type_value value
        if cleaned_value = emptyStr then table_query
        else table_query.ilike db_field cleaned_value
      else
        let cleaned_value := clean_search_value value
        if cleaned_value = emptyStr then table_query
        else if exact then TableQuery.eq table_query db_field cleaned_value
        else table_query.ilike db_field cleaned_value

/-! ## Search request model and validation -/

/-- The `MedicineSearchRequest` pydantic model after validation. -/
structure MedicineSearchRequest where
  name : Option String
  formulation : Option String
  type : Option String
  dosage : Option String
deriving DecidableEq, Repr

/-- `validate_string_fields`: a provided value that trims to empty becomes
`None`. -/
def normField : Option String → Option String
  | none => none
  | some v => if trimS v = emptyStr then none else some v

/-- pydantic validation of `MedicineSearchRequest`.  The two `@validator`s
carry no `always=True`/`validate_default`, so pydantic runs them ONLY for
fields supplied in the input; an absent field takes its default `None`
without any validation, and that default still appears in `values` for the
validators of later fields.  Here `nm`/`fm`/`ty`/`ds` are `none` when the
field is absent from the request body, `some v` when it is supplied with
string `v`.  For a supplied field, `validate_string_fields` first
normalizes a whitespace-only value to `None` (`normField` covers both this
and the unvalidated `None` default), then `validate_at_least_one_field`
raises when `values` is non-empty (true for every field after `name`), the
field value is `None`, and every previously processed field is `None`.
The check on `name` itself never raises (`values` is empty there), and no
check at all runs for an absent field — so an entirely absent body passes
validation. -/
def validateSearchRequest (nm fm ty ds : Option String) :
    Except String MedicineSearchRequest :=
  let n1 := normField nm
  let f1 := normField fm
  let t1 := normField ty
  let d1 := normField ds
  if fm.isSome ∧ f1 = none ∧ n1 = none then Except.error msgAtLeastOne
  else if ty.isSome ∧ t1 = none ∧ n1 = none ∧ f1 = none then Except.error msgAtLeastOne
  else if ds.isSome ∧ d1 = none ∧ n1 = none ∧ f1 = none ∧ t1 = none then
    Except.error msgAtLeastOne
  else Except.ok ⟨n1, f1, t1, d1⟩

/-! ## Claim C8 -/

def sTablet : String := "Tablet"

/-- Claim C8 (code bug): pydantic never runs `validate_at_least_one_field`
for absent fields, so a request body with all four fields absent is
ACCEPTED with every field `None` — although the claim, the model's own
docstring and its error message all say it must fail validation.  And a
request that does carry a non-empty field can still be rejected: with
`{Name: " ", Formulation: " ", Type: "Tablet"}` the check raises at the
`formulation` field (its normalized value and every previously processed
field are `None`) before `type` is looked at. -/
theorem all_absent_request_accepted :
    validateSearchRequest none none none none =
      Except.ok ⟨none, none, none, none⟩
    ∧ validateSearchRequest (some spaceStr) (some spaceStr) (some sTablet) none =
      Except.error msgAtLeastOne := by
  constructor <;> rfl

/-! ## Search endpoint (`POST /finder/search`) -/

/-- Values of the `sort_order` query parameter. -/
inductive SortOrder where
  | noneOrder
  | low_to_high
  | high_to_low
deriving DecidableEq, Repr

/-- The `SearchResponse` pydantic model. -/
structure SearchResponse where
  exact_match : Option Medicine
  similar_formulations : List Medicine
  Uses : Option String
  Side_Effects : Option String
deriving DecidableEq, Repr

/-- Outcome of a FastAPI endpoint call: `ok` is HTTP 200 with a body,
`err` carries the HTTP status code and the detail of the JSON error body. -/
inductive EndpointResult (α : Type) where
  | ok (body : α)
  | err (status : Nat) (detail : String)
deriving DecidableEq, Repr

/-- Python truthiness of an `Optional[str]`: `None` and `""` are falsy. -/
def truthy : Option String → Bool
  | none => false
  | some s => s != emptyStr

/-- A Python list comprehension `[f(x) for x in l]` whose body may raise:
the first raise aborts the whole comprehension. -/
def mapExcept (f : Row → Except String Medicine) : List Row → Except String (List Medicine)
  | [] => Except.ok []
  | r :: rs =>
    match f r with
    | Except.error e => Except.error e
    | Except.ok m =>
      match mapExcept f rs with
      | Except.error e => Except.error e
      | Except.ok ms => Except.ok (m :: ms)

def MAX_RESULTS : Nat := 15

/-- `is_type_or_dosage_search` in `search_medicines`. -/
def is_type_or_dosage_search (req : MedicineSearchRequest) : Bool :=
  (truthy req.type || truthy req.dosage) && !(truthy req.name || truthy req.formulation)

/-- The query-building and execution part of `search_medicines`
(`routers/finder.py` lines 256-300): filters are added in source order
(type, formulation, name, dosage), then the optional price sort, then the
`MAX_RESULTS` limit in browse (type/dosage) mode, then the query runs. -/
def searchRows (req : MedicineSearchRequest) (so : Option SortOrder)
    (db : List Row) : List Row :=
  let query := TableQuery.init
  let query := if truthy req.type then
      build_search_query query fldType (req.type.getD emptyStr) false
    else query
  let query := if truthy req.formulation then
      build_search_query query fldFormulation (req.formulation.getD emptyStr) false
    else query
  let query := if truthy req.name then
      build_search_query query fldName (req.name.getD emptyStr) false
    else query
  let query := if truthy req.dosage then
      build_search_query query fldDosage (req.dosage.getD emptyStr) false
    else query
  let query := match so with
    | some SortOrder.low_to_high => TableQuery.order query false
    | some SortOrder.high_to_low => TableQuery.order query true
    | _ => query
  let query := if is_type_or_dosage_search req then TableQuery.withLimit query MAX_RESULTS
    else query
  TableQuery.run query db

def msgSearchError : String := "Error processing search: "

/-- Browse (type/dosage) mode result assembly: all rows become
`similar_formulations`, `exact_match` is always absent.  A row that fails
mapping aborts the request; the raised error is caught by the handler's
blanket `except` clauses and surfaces as an HTTP 500. -/
def browseAssemble (medicines : List Row) : EndpointResult SearchResponse :=
  match mapExcept create_medicine_from_db medicines with
  | Except.ok processed => EndpointResult.ok ⟨none, processed, none, none⟩
  | Except.error e => EndpointResult.err 500 (msgSearchError ++ e)

/-- Lookup (name/formulation) mode result assembly (`routers/finder.py`
lines 326-362): `exact_matches[0]` — the first returned row whose `Name`
(when the request had a name) or `Formulation` (when it had a formulation)
equals the request value case-insensitively — becomes the exact match;
`processed_medicines` keeps every row `m` with `m != exact_match_data`,
which drops every row value-equal to the exact-match row, not just the one
occurrence; `Uses`/`Side Effects` are copied from the exact-match row. -/
def lookupAssemble (req : MedicineSearchRequest) (medicines : List Row) :
    EndpointResult SearchResponse :=
  let exact_match_data : Option Row :=
    if truthy req.name then
      (medicines.filter
        (fun m => toLowerS m.Name == toLowerS (req.name.getD emptyStr))).head?
    else if truthy req.formulation then
      (medicines.filter
        (fun m => toLowerS m.Formulation == toLowerS (req.formulation.getD emptyStr))).head?
    else none
  match exact_match_data with
  | some d =>
    match create_medicine_from_db d with
    | Except.error e => EndpointResult.err 500 (msgSearchError ++ e)
    | Except.ok em =>
      match mapExcept create_medicine_from_db (medicines.filter (fun m => m != d)) with
      | Except.error e => EndpointResult.err 500 (msgSearchError ++ e)
      | Except.ok processed =>
        EndpointResult.ok ⟨some em, processed, some d.Uses, some d.Side_Effects⟩
  | none =>
    match mapExcept create_medicine_from_db medicines with
    | Except.error e => EndpointResult.err 500 (msgSearchError ++ e)
    | Except.ok processed => EndpointResult.ok ⟨none, processed, none, none⟩

/-- The `search_medicines` handler on a validated request: build and run the
query; an empty result set yields the empty response; browse mode returns
all rows as similar formulations; lookup mode separates the exact match. -/
def searchMedicines (req : MedicineSearchRequest) (so : Option SortOrder)
    (db : List Row) : EndpointResult SearchResponse :=
  let medicines := searchRows req so db
  if medicines.isEmpty then EndpointResult.ok ⟨none, [], none, none⟩
  else if is_type_or_dosage_search req then browseAssemble medicines
  else lookupAssemble req medicines

/-! ## Helper lemmas for the search endpoint -/

/-- A query whose row limit is `n` returns at most `n` rows. -/
theorem TableQuery.run_length_of_limit (q : TableQuery) (db : List Row) (n : Nat)
    (h : q.rowLimit = some n) : (q.run db).length ≤ n := by
  unfold TableQuery.run
  simp only [h, List.length_take]
  exact min_le_left _ _

/-- In browse mode the executed search query carries the `MAX_RESULTS`
limit, so at most `MAX_RESULTS` rows come back. -/
theorem searchRows_browse_length (req : MedicineSearchRequest)
    (so : Option SortOrder) (db : List Row)
    (hb : is_type_or_dosage_search req = true) :
    (searchRows req so db).length ≤ MAX_RESULTS := by
  unfold searchRows
  simp only [hb, if_true]
  exact TableQuery.run_length_of_limit _ db MAX_RESULTS rfl

/-- A comprehension that succeeds maps each row to one medicine. -/
theorem mapExcept_length (f : Row → Except String Medicine) (l : List Row)
    (res : List Medicine) (h : mapExcept f l = Except.ok res) :
    res.length = l.length := by
  induction l generalizing res with
  | nil =>
    simp only [mapExcept, Except.ok.injEq] at h
    rw [← h]
    rfl
  | cons a t ih =>
    unfold mapExcept at h
    cases hf : f a with
    | error e => rw [hf] at h; exact absurd h (by simp)
    | ok m =>
      rw [hf] at h
      cases hr : mapExcept f t with
      | error e => rw [hr] at h; exact absurd h (by simp)
      | ok ms =>
        rw [hr] at h
        simp only [Except.ok.injEq] at h
        rw [← h]
        simp [ih ms hr]

/-! ## Claim C4 -/

/-- Claim C4 (confirmed): in browse mode (type and/or dosage set, neither
name nor formulation set) a successful search response never has an exact
match and returns at most `MAX_RESULTS` (15) similar formulations. -/
theorem search_browse_no_exact_and_capped (req : MedicineSearchRequest)
    (so : Option SortOrder) (db : List Row) (resp : SearchResponse)
    (ht : (truthy req.type || truthy req.dosage) = true)
    (hn : req.name = none) (hf : req.formulation = none)
    (hok : searchMedicines req so db = EndpointResult.ok resp) :
    resp.exact_match = none ∧ resp.similar_formulations.length ≤ 15 := by
  have hb : is_type_or_dosage_search req = true := by
    simp only [is_type_or_dosage_search, hn, hf, truthy, Bool.or_false,
      Bool.not_false, Bool.and_true]
    exact ht
  have hlen : (searchRows req so db).length ≤ MAX_RESULTS :=
    searchRows_browse_length req so db hb
  unfold searchMedicines at hok
  by_cases he : (searchRows req so db).isEmpty
  · rw [if_pos he] at hok
    simp only [EndpointResult.ok.injEq] at hok
    rw [← hok]
    exact ⟨rfl, by simp⟩
  · rw [if_neg he] at hok
    simp only [hb, if_true] at hok
    unfold browseAssemble at hok
    cases hm : mapExcept create_medicine_from_db (searchRows req so db) with
    | error e => rw [hm] at hok; exact absurd hok (by simp)
    | ok ms =>
      rw [hm] at hok
      simp only [EndpointResult.ok.injEq] at hok
      rw [← hok]
      refine ⟨rfl, ?_⟩
      simpa [mapExcept_length create_medicine_from_db _ ms hm] using hlen

def sCream : String := "Cream"

def rowW4 : Row :=
  { Name := colName
    Dosage := colDosage
    Formulation := colFormulation
    cost_of_branded := 20
    cost_of_generic := 5
    cost_difference := none
    savings := none
    type := sCream
    Uses := colUses
    Side_Effects := colSideEffects }

def reqW4 : MedicineSearchRequest := ⟨none, none, some sCream, none⟩

def medW4 : Medicine :=
  { name := colName
    dosage := colDosage
    formulation := colFormulation
    cost_of_branded := 20
    cost_of_generic := 5
    cost_difference := some 15
    savings := some 75
    type := sCream
    uses := colUses
    side_effects := colSideEffects }

/-- Witness for C4 at a concrete browse request and store. -/
theorem search_browse_no_exact_and_capped_witness :
    (searchMedicines reqW4 none [rowW4] =
      EndpointResult.ok ⟨none, [medW4], none, none⟩)
    ∧ ((⟨none, [medW4], none, none⟩ : SearchResponse).exact_match = none
        ∧ (⟨none, [medW4], none, none⟩ : SearchResponse).similar_formulations.length ≤ 15) := by
  have hrows : searchRows reqW4 none [rowW4] = [rowW4] := by rfl
  have hcreate : create_medicine_from_db rowW4 = Except.ok medW4 := by
    norm_num [create_medicine_from_db, validateMedicine, rowW4, medW4, roundTo1]
  have hok : searchMedicines reqW4 none [rowW4] =
      EndpointResult.ok ⟨none, [medW4], none, none⟩ := by
    unfold searchMedicines browseAssemble
    rw [hrows]
    norm_num [mapExcept, hcreate, is_type_or_dosage_search, truthy, reqW4, sCream, emptyStr]
    intro hc
    exact absurd hc (by decide)
  exact ⟨hok, search_browse_no_exact_and_capped reqW4 none [rowW4] _ (by rfl) rfl rfl hok⟩

/-! ## Claim C3: lookup mode -/

/-- The row the claim designates as exact match: the first returned row
whose `Name` (when the request had a name) or `Formulation` (when it had a
formulation) equals the request value case-insensitively and exactly. -/
def claimExactTarget (req : MedicineSearchRequest) (rows : List Row) : Option Row :=
  match req.name with
  | some nv => rows.find? (fun m => toLowerS m.Name == toLowerS nv)
  | none =>
    match req.formulation with
    | some fv => rows.find? (fun m => toLowerS m.Formulation == toLowerS fv)
    | none => none

/-- What the amended claim C3 says about a lookup-mode response, relative to
the rows the store returned: the designated exact-match row maps into
`exact_match`; every returned row not value-equal to that row maps, in the
store's original order, into `similar_formulations`; `Uses`/`Side_Effects`
are copied from the exact-match row.  Without a designated row,
`exact_match` and the copied fields are absent and every returned row maps
in order into `similar_formulations`. -/
def LookupSpecHolds (req : MedicineSearchRequest) (rows : List Row)
    (resp : SearchResponse) : Prop :=
  match claimExactTarget req rows with
  | some ex =>
    (∃ med, create_medicine_from_db ex = Except.ok med ∧ resp.exact_match = some med)
    ∧ mapExcept create_medicine_from_db (rows.filter (fun m => m != ex)) =
        Except.ok resp.similar_formulations
    ∧ resp.Uses = some ex.Uses ∧ resp.Side_Effects = some ex.Side_Effects
  | none =>
    resp.exact_match = none
    ∧ mapExcept create_medicine_from_db rows = Except.ok resp.similar_formulations
    ∧ resp.Uses = none ∧ resp.Side_Effects = none

/-- `exact_matches[0]` in the source is the head of a filter, which is the
first row satisfying the predicate. -/
theorem head?_filter_eq_find? (p : Row → Bool) (l : List Row) :
    (l.filter p).head? = l.find? p := by
  induction l with
  | nil => rfl
  | cons a t ih =>
    cases hp : p a <;> simp [List.filter_cons, List.find?, hp, ih]

/-- A request accepted by validation carries exactly the normalized fields. -/
theorem validateSearchRequest_shape (nm fm ty ds : Option String)
    (req : MedicineSearchRequest)
    (h : validateSearchRequest nm fm ty ds = Except.ok req) :
    req = ⟨normField nm, normField fm, normField ty, normField ds⟩ := by
  simp only [validateSearchRequest] at h
  split_ifs at h
  all_goals simp only [Except.ok.injEq] at h
  exact h.symm

/-- A normalized field is never the empty string. -/
theorem normField_some_ne_empty (o : Option String) (v : String)
    (h : normField o = some v) : v ≠ emptyStr := by
  cases o with
  | none => simp [normField] at h
  | some w =>
    simp only [normField] at h
    by_cases hw : trimS w = emptyStr
    · rw [if_pos hw] at h
      exact absurd h (by simp)
    · rw [if_neg hw] at h
      simp only [Option.some.injEq] at h
      subst h
      intro hv
      apply hw
      rw [hv]
      rfl

/-- A successful lookup-mode assembly satisfies the amended claim (relative
to the rows the store returned), provided the set request fields are
non-empty, as validation guarantees. -/
theorem lookupAssemble_spec (req : MedicineSearchRequest) (rows : List Row)
    (resp : SearchResponse)
    (hcn : ∀ v, req.name = some v → v ≠ emptyStr)
    (hcf : ∀ v, req.formulation = some v → v ≠ emptyStr)
    (h : lookupAssemble req rows = EndpointResult.ok resp) :
    LookupSpecHolds req rows resp := by
  unfold lookupAssemble at h
  unfold LookupSpecHolds claimExactTarget
  cases hn : req.name with
  | some nv =>
    have hnv : nv ≠ emptyStr := hcn nv hn
    simp only [hn, truthy, Option.getD_some, bne_iff_ne, ne_eq, hnv,
      not_false_eq_true, if_true, ite_true] at h ⊢
    rw [head?_filter_eq_find?] at h
    cases hfind : rows.find? (fun m => toLowerS m.Name == toLowerS nv) with
    | none =>
      rw [hfind] at h
      dsimp only at h
      cases hm : mapExcept create_medicine_from_db rows with
      | error e => rw [hm] at h; exact absurd h (by simp)
      | ok ms =>
        rw [hm] at h
        simp only [EndpointResult.ok.injEq] at h
        rw [← h]
        exact ⟨rfl, rfl, rfl, rfl⟩
    | some d =>
      rw [hfind] at h
      dsimp only at h
      cases hc : create_medicine_from_db d with
      | error e => rw [hc] at h; exact absurd h (by simp)
      | ok em =>
        rw [hc] at h
        dsimp only at h
        cases hm : mapExcept create_medicine_from_db (rows.filter (fun m => m != d)) with
        | error e => rw [hm] at h; exact absurd h (by simp)
        | ok ms =>
          rw [hm] at h
          simp only [EndpointResult.ok.injEq] at h
          rw [← h]
          exact ⟨⟨em, hc, rfl⟩, hm, rfl, rfl⟩
  | none =>
    have htn : truthy req.name = false := by rw [hn]; rfl
    cases hf : req.formulation with
    | some fv =>
      have hfv : fv ≠ emptyStr := hcf fv hf
      simp only [hn, hf, htn, truthy, Option.getD_some, bne_iff_ne, ne_eq, hfv,
        not_false_eq_true, if_true, ite_true, if_false, ite_false,
        Bool.false_eq_true] at h ⊢
      rw [head?_filter_eq_find?] at h
      cases hfind : rows.find? (fun m => toLowerS m.Formulation == toLowerS fv) with
      | none =>
        rw [hfind] at h
        dsimp only at h
        cases hm : mapExcept create_medicine_from_db rows with
        | error e => rw [hm] at h; exact absurd h (by simp)
        | ok ms =>
          rw [hm] at h
          simp only [EndpointResult.ok.injEq] at h
          rw [← h]
          exact ⟨rfl, rfl, rfl, rfl⟩
      | some d =>
        rw [hfind] at h
        dsimp only at h
        cases hc : create_medicine_from_db d with
        | error e => rw [hc] at h; exact absurd h (by simp)
        | ok em =>
          rw [hc] at h
          dsimp only at h
          cases hm : mapExcept create_medicine_from_db (rows.filter (fun m => m != d)) with
          | error e => rw [hm] at h; exact absurd h (by simp)
          | ok ms =>
            rw [hm] at h
            simp only [EndpointResult.ok.injEq] at h
            rw [← h]
            exact ⟨⟨em, hc, rfl⟩, hm, rfl, rfl⟩
    | none =>
      have htf : truthy req.formulation = false := by rw [hf]; rfl
      simp only [hn, hf, htn, htf, truthy, if_false, ite_false,
        Bool.false_eq_true] at h ⊢
      cases hm : mapExcept create_medicine_from_db rows with
      | error e => rw [hm] at h; exact absurd h (by simp)
      | ok ms =>
        rw [hm] at h
        simp only [EndpointResult.ok.injEq] at h
        rw [← h]
        exact ⟨rfl, rfl, rfl, rfl⟩

def sTabXLower : String := "tab x"

def reqDup : MedicineSearchRequest := ⟨some sTabXLower, none, none, none⟩

def rowDup : Row :=
  { Name := sTabX
    Dosage := s1mg
    Formulation := s1mg
    cost_of_branded := 10
    cost_of_generic := 5
    cost_difference := none
    savings := none
    type := colType
    Uses := colUses
    Side_Effects := colSideEffects }

def medDup : Medicine :=
  { name := sTabX
    dosage := s1mg
    formulation := s1mg
    cost_of_branded := 10
    cost_of_generic := 5
    cost_difference := some 5
    savings := some 50
    type := colType
    uses := colUses
    side_effects := colSideEffects }

/-- Counterexample to claim C3 as stated: searching `name="tab x"` against a
store that returns the matching row twice yields that row (case-insensitive
match on `TAB X`) as `exact_match`, but `similar_formulations` is EMPTY —
the second returned row does not appear, because the source excludes every
row value-equal to the exact-match row (`m != exact_match_data`), not just
the matched occurrence. -/
theorem search_duplicate_row_counterexample :
    searchRows reqDup none [rowDup, rowDup] = [rowDup, rowDup]
    ∧ searchMedicines reqDup none [rowDup, rowDup] =
        EndpointResult.ok ⟨some medDup, [], some colUses, some colSideEffects⟩ := by
  have hrows : searchRows reqDup none [rowDup, rowDup] = [rowDup, rowDup] := by rfl
  have hcreate : create_medicine_from_db rowDup = Except.ok medDup := by
    norm_num [create_medicine_from_db, validateMedicine, rowDup, medDup, roundTo1]
  refine ⟨hrows, ?_⟩
  have h1 : searchMedicines reqDup none [rowDup, rowDup] =
      lookupAssemble reqDup [rowDup, rowDup] := by
    unfold searchMedicines
    rw [hrows]
    rfl
  have hfilter : ([rowDup, rowDup].filter
      (fun m => toLowerS m.Name == toLowerS (reqDup.name.getD emptyStr))) =
      [rowDup, rowDup] := by rfl
  have htn : truthy reqDup.name = true := by rfl
  have hexcl : ([rowDup, rowDup].filter (fun m => m != rowDup)) = [] := by
    simp [List.filter]
  have h2 : lookupAssemble reqDup [rowDup, rowDup] =
      EndpointResult.ok ⟨some medDup, [], some colUses, some colSideEffects⟩ := by
    unfold lookupAssemble
    simp only [htn, eq_self_iff_true, if_true, ite_true]
    rw [hfilter]
    simp only [List.head?_cons]
    try dsimp only
    rw [hcreate]
    try dsimp only
    rw [hexcl]
    rfl
  rw [h1, h2]

/-! ### Claim C3 main theorem -/

/-- Claim C3 (amended): for a validated lookup-mode request (name and/or
formulation set), a successful search response satisfies the lookup
specification relative to the rows the executed query returned: the first
row matching the request's name (or, with no name, its formulation)
case-insensitively becomes `exact_match`; every returned row NOT value-equal
to that row is mapped, in the store's original order, into
`similar_formulations` (value-equal duplicates of the exact-match row are
dropped); `Uses`/`Side_Effects` are copied from the exact-match row when
one exists, else absent. -/
theorem search_lookup_spec (nm fm ty ds : Option String)
    (req : MedicineSearchRequest)
    (hreq : validateSearchRequest nm fm ty ds = Except.ok req)
    (so : Option SortOrder) (db : List Row) (resp : SearchResponse)
    (hmode : req.name ≠ none ∨ req.formulation ≠ none)
    (hok : searchMedicines req so db = EndpointResult.ok resp) :
    LookupSpecHolds req (searchRows req so db) resp := by
  have hshape := validateSearchRequest_shape nm fm ty ds req hreq
  have hname_eq : req.name = normField nm := by rw [hshape]
  have hform_eq : req.formulation = normField fm := by rw [hshape]
  have hcn : ∀ v, req.name = some v → v ≠ emptyStr := by
    intro v hv
    rw [hname_eq] at hv
    exact normField_some_ne_empty nm v hv
  have hcf : ∀ v, req.formulation = some v → v ≠ emptyStr := by
    intro v hv
    rw [hform_eq] at hv
    exact normField_some_ne_empty fm v hv
  have hbrowse : is_type_or_dosage_search req = false := by
    unfold is_type_or_dosage_search
    rcases hmode with h | h
    · cases hv : req.name with
      | none => exact absurd hv h
      | some v =>
        have htv : truthy (some v) = true := by
          simp only [truthy, bne_iff_ne, ne_eq]
          simp [hcn v hv]
        rw [htv]
        simp
    · cases hv : req.formulation with
      | none => exact absurd hv h
      | some v =>
        have htv : truthy (some v) = true := by
          simp only [truthy, bne_iff_ne, ne_eq]
          simp [hcf v hv]
        rw [htv]
        simp
  unfold searchMedicines at hok
  by_cases he : (searchRows req so db).isEmpty
  · rw [if_pos he] at hok
    have hrows : searchRows req so db = [] := by
      rwa [List.isEmpty_iff] at he
    simp only [EndpointResult.ok.injEq] at hok
    rw [hrows]
    unfold LookupSpecHolds
    have htarget : claimExactTarget req ([] : List Row) = none := by
      unfold claimExactTarget
      cases req.name <;> cases req.formulation <;> simp [List.find?]
    rw [htarget]
    rw [← hok]
    exact ⟨rfl, rfl, rfl, rfl⟩
  · rw [if_neg he] at hok
    simp only [hbrowse, Bool.false_eq_true, if_false, ite_false] at hok
    exact lookupAssemble_spec req _ resp hcn hcf hok

def sTabY : String := "tab y"

def reqW3 : MedicineSearchRequest := ⟨some sTabY, none, none, none⟩

/-- Witness for C3 at a concrete validated request and store. -/
theorem search_lookup_spec_witness :
    LookupSpecHolds reqW3 (searchRows reqW3 none []) ⟨none, [], none, none⟩ :=
  search_lookup_spec (some sTabY) none none none reqW3 (by rfl) none []
    ⟨none, [], none, none⟩ (Or.inl (by simp [reqW3])) (by rfl)

/-! ## Suggestions endpoint (`GET /finder/suggestions/{field}`) and cache -/

def colonSpace : String := ": "

/-- Result of one store round-trip: the table rows, or a raised error
(connection failure included). -/
inductive StoreResult where
  | rows (data : List Row)
  | failure (msg : String)

/-- The `lru_cache` state of `get_cached_suggestions`: entries keyed by the
exact `(field, query)` argument pair.  Eviction is not modelled; the claims
speak only about entries that are present. -/
abbrev SuggCache := List (String × Option String × List String)

def lookupCache : SuggCache → String → Option String → Option (List String)
  | [], _, _ => none
  | (f, q, v) :: rest, field, query =>
    if f == field && q == query then some v else lookupCache rest field query

/-- Python `sorted(list(set(...)))`: distinct values in ascending order. -/
def dedupSortStrings (l : List String) : List String :=
  (l.eraseDups).mergeSort (fun a b => decide (a ≤ b))

/-- Body of `get_cached_suggestions` (`routers/finder.py`): select the
field column, apply an ilike filter by the cleaned query when the query is
truthy, collect the non-empty string values into a set, return them sorted
and capped at 10; ANY raised error — a store connection error included —
is caught inside the function and becomes `[]`. -/
def fetch_suggestions (store : StoreResult) (field : String)
    (query : Option String) : List String :=
  match store with
  | StoreResult.failure _ => []
  | StoreResult.rows data =>
    let table := if truthy query then
        data.filter (fun r => ilikeContains (r.getStr field)
          (clean_search_value (query.getD emptyStr)))
      else data
    if table.isEmpty then []
    else
      let vals := (table.map (fun r => r.getStr field)).filter (fun v => v != emptyStr)
      (dedupSortStrings vals).take 10

structure CacheCall where
  result : List String
  newCache : SuggCache
  contacted : Bool
deriving Repr

/-- The `lru_cache`-wrapped `get_cached_suggestions`: a hit returns the
cached list without touching the store; a miss runs the body (contacting
the store) and memoizes its result — the empty list from a caught store
error included, since the error is swallowed inside the cached function. -/
def get_cached_suggestions (cache : SuggCache) (store : StoreResult)
    (field : String) (query : Option String) : CacheCall :=
  match lookupCache cache field query with
  | some v => ⟨v, cache, false⟩
  | none =>
    let v := fetch_suggestions store field query
    ⟨v, (field, query, v) :: cache, true⟩

/-- The `AutocompleteSuggestion` pydantic model. -/
structure AutocompleteSuggestion where
  value : String
  field_type : String
deriving DecidableEq, Repr

/-- The `AutocompleteResponse` pydantic model. -/
structure AutocompleteResponse where
  suggestions : List AutocompleteSuggestion
deriving DecidableEq, Repr

def validFields : List String := [colName, colFormulation, colType, colDosage]

def msgInvalidField : String :=
  "Invalid field. Must be one of: Name, Formulation, Type, Dosage"

/-- Detail of the response actually produced for an invalid field: the
`HTTPException(400, detail)` raised inside the `try` is caught by the
handler’s own blanket `except Exception`, which returns a 500 JSON
response whose detail is `str(e)` = `"400: " + detail`. -/
def msgInvalidField500 : String := toString 400 ++ colonSpace ++ msgInvalidField

structure SuggCall where
  response : EndpointResult AutocompleteResponse
  newCache : SuggCache
  contacted : Bool

/-- The `get_suggestions` endpoint handler: an invalid field raises
`HTTPException(400, ...)`, which the handler’s own `except Exception`
immediately catches and converts into a 500 JSONResponse — without touching
the store or the cache.  A valid field goes through the cache; since store
errors were already folded to `[]` inside `get_cached_suggestions`, this
path always returns HTTP 200.  (The `except SupabaseConnectionError ->
503` clause is unreachable from the fetch, and the extra `get_all_types`
call for `field == "Type"` only logs and swallows its own errors; both are
omitted.) -/
def get_suggestions (cache : SuggCache) (store : StoreResult) (field : String)
    (query : Option String) : SuggCall :=
  if field ∈ validFields then
    let c := get_cached_suggestions cache store field query
    ⟨EndpointResult.ok ⟨c.result.map (fun v => ⟨v, field⟩)⟩, c.newCache, c.contacted⟩
  else
    ⟨EndpointResult.err 500 msgInvalidField500, cache, false⟩

/-! ## Claims C2, C9, C10 -/

/-- Claim C2 (code bug): for a field outside {Name, Formulation, Type,
Dosage} the endpoint responds without querying the store (cache and store
untouched, `contacted = false`) — but with HTTP 500, not 400: the
`HTTPException(400)` raised inside the handler’s `try` is caught by the
handler’s own blanket `except Exception` and converted into a 500
JSONResponse with detail `"400: Invalid field. ..."`. -/
theorem invalid_suggestion_field_is_500 (cache : SuggCache) (store : StoreResult)
    (field : String) (query : Option String) (hf : field ∉ validFields) :
    get_suggestions cache store field query =
      ⟨EndpointResult.err 500 msgInvalidField500, cache, false⟩ := by
  unfold get_suggestions
  rw [if_neg hf]

def sFoo : String := "Foo"

/-- Witness for C2 at the concrete invalid field `"Foo"`. -/
theorem invalid_suggestion_field_is_500_witness :
    get_suggestions [] (StoreResult.rows []) sFoo none =
      ⟨EndpointResult.err 500 msgInvalidField500, [], false⟩ :=
  invalid_suggestion_field_is_500 [] (StoreResult.rows []) sFoo none (by decide)

/-- Claim C9 (confirmed): when a valid field’s suggestions are actually
fetched (cache miss) and the store raises an error, the endpoint still
responds HTTP 200 with an empty suggestions list — never a 5xx. -/
theorem suggestions_store_error_returns_ok_empty (cache : SuggCache)
    (field : String) (query : Option String) (msg : String)
    (hf : field ∈ validFields)
    (hmiss : lookupCache cache field query = none) :
    (get_suggestions cache (StoreResult.failure msg) field query).response =
      EndpointResult.ok ⟨[]⟩ := by
  unfold get_suggestions
  rw [if_pos hf]
  unfold get_cached_suggestions
  rw [hmiss]
  rfl

def sDiab : String := "diab"

def sBoom : String := "connection refused"

/-- Witness for C9 at a concrete field, query and failing store. -/
theorem suggestions_store_error_returns_ok_empty_witness :
    (get_suggestions [] (StoreResult.failure sBoom) colType (some sDiab)).response =
      EndpointResult.ok ⟨[]⟩ :=
  suggestions_store_error_returns_ok_empty [] colType (some sDiab) sBoom
    (by decide) rfl

/-- Claim C10 (confirmed): the cache memoizes error results.  A cache miss
during which the store fails stores `[]` under the `(field, query)` key;
and as long as an entry holding `[]` is present (i.e. until it is evicted),
every call for that `(field, query)` returns `[]` without contacting the
store — even against a recovered store. -/
theorem suggestion_cache_memoizes_errors (cache cache2 : SuggCache)
    (store2 : StoreResult) (field : String) (query : Option String) (msg : String)
    (hmiss : lookupCache cache field query = none)
    (hentry : lookupCache cache2 field query = some []) :
    (get_cached_suggestions cache (StoreResult.failure msg) field query).result = []
    ∧ lookupCache
        (get_cached_suggestions cache (StoreResult.failure msg) field query).newCache
        field query = some []
    ∧ get_cached_suggestions cache2 store2 field query = ⟨[], cache2, false⟩ := by
  refine ⟨?_, ?_, ?_⟩
  · unfold get_cached_suggestions
    rw [hmiss]
    rfl
  · unfold get_cached_suggestions
    rw [hmiss]
    show lookupCache ((field, query, fetch_suggestions (StoreResult.failure msg)
      field query) :: cache) field query = some []
    simp [lookupCache, fetch_suggestions]
  · unfold get_cached_suggestions
    rw [hentry]

def sDiab2 : String := "diabetes"

def sBoom2 : String := "timeout"

/-- Witness for C10 at concrete caches and stores. -/
theorem suggestion_cache_memoizes_errors_witness :
    (get_cached_suggestions [] (StoreResult.failure sBoom2) colType (some sDiab2)).result = []
    ∧ lookupCache
        (get_cached_suggestions [] (StoreResult.failure sBoom2) colType (some sDiab2)).newCache
        colType (some sDiab2) = some []
    ∧ get_cached_suggestions [(colType, some sDiab2, ([] : List String))]
        (StoreResult.rows []) colType (some sDiab2) =
        ⟨[], [(colType, some sDiab2, ([] : List String))], false⟩ :=
  suggestion_cache_memoizes_errors [] [(colType, some sDiab2, ([] : List String))]
    (StoreResult.rows []) colType (some sDiab2) sBoom2 rfl (by decide)

/-! ## Single-medicine endpoint (`GET /finder/medicine/{name}`) and claim C1 -/

/-- A raised Python exception inside the handler body. -/
inductive PyExn where
  | httpExc (status : Nat) (detail : String)
  | valErr (msg : String)

/-- Python `str(e)`: an `HTTPException` prints as `"<status>: <detail>"`. -/
def PyExn.str : PyExn → String
  | PyExn.httpExc s d => toString s ++ colonSpace ++ d
  | PyExn.valErr m => m

def msgMedicineNotFound : String := "Medicine not found"

/-- Body of the `get_medicine_details` handler’s `try` block: exact
equality lookup of `Name`, limited to one row; zero rows raise
`HTTPException(404, "Medicine not found")`; otherwise the row is validated
via `Medicine.model_validate` (a ValidationError propagates). -/
def get_medicine_details_body (db : List Row) (nm : String) : Except PyExn Medicine :=
  let response := (db.filter (fun r => r.Name == nm)).take 1
  match response with
  | [] => Except.error (PyExn.httpExc 404 msgMedicineNotFound)
  | medicine :: _ =>
    match validateMedicine medicine with
    | Except.ok m => Except.ok m
    | Except.error e => Except.error (PyExn.valErr e)

/-- The `get_medicine_details` handler: `except Exception as e: raise
HTTPException(500, str(e))` catches EVERY exception raised in the body —
the handler’s own `HTTPException(404)` included, since FastAPI’s
`HTTPException` subclasses `Exception` — so every error path surfaces as
HTTP 500. -/
def get_medicine_details (db : List Row) (nm : String) : EndpointResult Medicine :=
  match get_medicine_details_body db nm with
  | Except.ok m => EndpointResult.ok m
  | Except.error e => EndpointResult.err 500 e.str

/-- Claim C1 (code bug): when the exact-equality lookup on the name returns
zero rows, the endpoint does NOT respond 404 — the `HTTPException(404,
"Medicine not found")` raised inside the `try` is caught by the blanket
`except Exception` and re-raised as HTTP 500 with detail
`"404: Medicine not found"`. -/
theorem medicine_lookup_miss_is_500 (db : List Row) (nm : String)
    (hmiss : db.filter (fun r => r.Name == nm) = []) :
    get_medicine_details db nm =
      EndpointResult.err 500 (toString 404 ++ colonSpace ++ msgMedicineNotFound) := by
  unfold get_medicine_details get_medicine_details_body
  rw [hmiss]
  rfl

def rowC1 : Row :=
  { Name := colName
    Dosage := colDosage
    Formulation := colFormulation
    cost_of_branded := 10
    cost_of_generic := 5
    cost_difference := none
    savings := none
    type := colType
    Uses := colUses
    Side_Effects := colSideEffects }

def sMissing : String := "DOLO 650"

/-- Witness for C1: a store holding one row whose name differs from the
looked-up name. -/
theorem medicine_lookup_miss_is_500_witness :
    get_medicine_details [rowC1] sMissing =
      EndpointResult.err 500 (toString 404 ++ colonSpace ++ msgMedicineNotFound) :=
  medicine_lookup_miss_is_500 [rowC1] sMissing (by rfl)

end GenericBro
